import Mathlib

/-!
Shallow embedding of the computational core of `plotting.py` from the
eBay-scraper reporting module, together with theorems checking the
specification's claims about it.

The embedding models the prepared tabular data (`df_calc = prep_df(df)`) as a
list of `SaleRecord`s.  Prices, shipping costs and fee rates are modelled as
exact rationals (`ℚ`), idealizing Python float arithmetic; Python `round` is
modelled as round-half-to-even (`pythonRound`), Python `int()` as truncation
toward zero (`intTrunc`).  Operations that raise in Python (e.g. `max()` of an
empty sequence, `int(nan)`, unalignable boolean indexers in pandas) are
modelled by `Option`-valued results, `none` standing for the raised exception.
-/

/-- A row of the prepared sales dataframe: `Sold Date` (as a day ordinal),
`Total Price`, `Shipping`, `Quantity`, `Store` (0/1 flag as a Bool),
`Seller` and `Seller Feedback` (the string sentinel `'None'` in the source
is modelled as `Option.none`; seller names are modelled by numeric ids). -/
structure SaleRecord where
  soldDate : ℕ
  totalPrice : ℚ
  shipping : ℚ
  quantity : ℕ
  store : Bool
  seller : Option ℕ
  feedback : Option ℕ
deriving DecidableEq

/-- Insertion step for insertion sort with `≤`. -/
def insertLe {α : Type} [LinearOrder α] (x : α) : List α → List α
  | [] => [x]
  | y :: ys => if x ≤ y then x :: y :: ys else y :: insertLe x ys

/-- Insertion sort with `≤`; models the ascending ordering pandas applies to
sorted values (for medians) and to groupby keys (for date series). -/
def sortLe {α : Type} [LinearOrder α] : List α → List α
  | [] => []
  | x :: xs => insertLe x (sortLe xs)

/-- Median of a list of rationals in the pandas sense: sort ascending, take
the middle element for odd length and the mean of the two middle elements for
even length.  The empty list has no median (`pandas` returns `NaN`), modelled
as `none`. -/
def median (l : List ℚ) : Option ℚ :=
  let s := sortLe l
  match s.get? ((s.length - 1) / 2), s.get? (s.length / 2) with
  | some a, some b => some ((a + b) / 2)
  | _, _ => none

/-- Python 3 `round` to the nearest integer, ties to even (banker's
rounding), on an exact rational input. -/
def pythonRound (q : ℚ) : ℤ :=
  let f := ⌊q⌋
  if q - f < 1 / 2 then f
  else if q - f > 1 / 2 then f + 1
  else if f % 2 = 0 then f else f + 1

/-- Python `int()` on a numeric value: truncation toward zero. -/
def intTrunc (q : ℚ) : ℤ := if 0 ≤ q then ⌊q⌋ else ⌈q⌉

/-- The `estimated_shipping` computation shared by `ebay_plot` (lines 90-93)
and `plot_profits` (lines 226-229): the median of the strictly-positive
`Shipping` values, defaulting to `0` when that median is `NaN` (i.e. when no
record has positive shipping). -/
def estShippingOf (records : List SaleRecord) : ℚ :=
  (median ((records.filter (fun r => decide (0 < r.shipping))).map
    (fun r => r.shipping))).getD 0

/-- The scalar outputs of `ebay_plot` (line 202), in return order. -/
structure EbayPlotResult where
  median_price : ℤ
  est_break_even : ℤ
  min_break_even : ℤ
  tot_sold : ℕ
  estimated_shipping : ℚ
deriving DecidableEq

/-- The scalar-producing core of `ebay_plot` (lines 62-105 and 202 of
`plotting.py`).  On an empty prepared record set the source raises
(`max(median_prices)` on line 68 is `max()` of an empty sequence, and
`int(...)` of a `NaN` median on line 71 also raises), modelled as `none`.
Otherwise: `median_price = int(df['Total Price'].median())`;
when `msrp > 0`, `est_break_even` and `min_break_even` are the rounded
break-even formulas of lines 103-105 using fee constants
`pp_flat_fee = 0.30`, `pp_fee_per = 0.029`, `est_ebay_fee = 0.1`,
`min_be_ebay_fee = 0.036`, `msrp_discount = 0.05`, and
`estimated_shipping` is the positive-shipping median; when `msrp ≤ 0` all
three stay at their `0` initializations (lines 73-74, 86). -/
def ebay_plot (msrp taxRate : ℚ) (records : List SaleRecord) :
    Option EbayPlotResult :=
  if records.isEmpty then none
  else
    let estimated_shipping : ℚ := if 0 < msrp then estShippingOf records else 0
    let est_break_even : ℤ :=
      if 0 < msrp then
        pythonRound (msrp * (1 + taxRate) / (1 - 0.1 - 0.029) + 0.30
          + estimated_shipping)
      else 0
    let min_break_even : ℤ :=
      if 0 < msrp then
        pythonRound (msrp * (1 - 0.05) / (1 - 0.036 - 0.029) + 0.30)
      else 0
    some { median_price :=
             intTrunc ((median (records.map (fun r => r.totalPrice))).getD 0)
         , est_break_even := est_break_even
         , min_break_even := min_break_even
         , tot_sold := (records.map (fun r => r.quantity)).sum
         , estimated_shipping := estimated_shipping }

/-- The 0/1 numeric value of the `Store` column used in arithmetic. -/
def storeInd (r : SaleRecord) : ℚ := if r.store then 1 else 0

/-- The per-record `eBay Profits` column of `plot_profits` (lines 232-233):
`price * non_store_rate * (1 - Store) + price * store_rate * Store`. -/
def ebayProfitCol (storeRate nonStoreRate : ℚ) (r : SaleRecord) : ℚ :=
  r.totalPrice * nonStoreRate * (1 - storeInd r)
    + r.totalPrice * storeRate * storeInd r

/-- The per-record `PayPal Profits` column of `plot_profits` (line 235):
`price * 0.029 + 0.30`. -/
def paypalProfitCol (r : SaleRecord) : ℚ := r.totalPrice * 0.029 + 0.30

/-- The per-record `Scalper Profits` column of `plot_profits` (lines 237-244),
written with the same 0/1 indicator arithmetic as the source. -/
def scalperProfitCol (msrp taxRate storeRate nonStoreRate estShip : ℚ)
    (r : SaleRecord) : ℚ :=
  storeInd r * (r.totalPrice - (msrp * (1 + taxRate) + estShip)
      - r.totalPrice * storeRate - (r.totalPrice * 0.029 + 0.30))
    + (1 - storeInd r) * (r.totalPrice - (msrp * (1 + taxRate) + estShip)
      - r.totalPrice * nonStoreRate - (r.totalPrice * 0.029 + 0.30))

/-- The ascending list of distinct sold dates: the groupby keys of
`df.groupby(['Sold Date'])`, which pandas returns in ascending order. -/
def datesOf (records : List SaleRecord) : List ℕ :=
  sortLe ((records.map (fun r => r.soldDate)).dedup)

/-- Per-date aggregation by summation: the value a `groupby('Sold Date')`
`'sum'` aggregation assigns to date `d` for a per-record column `f`. -/
def dailySum (records : List SaleRecord) (f : SaleRecord → ℚ) (d : ℕ) : ℚ :=
  ((records.filter (fun r => r.soldDate == d)).map f).sum

/-- Running partial sums starting from accumulator `a`: models `cumsum()`
along the date-ordered aggregated frame. -/
def cumFrom (a : ℚ) : List ℚ → List ℚ
  | [] => []
  | x :: xs => (a + x) :: cumFrom (a + x) xs

/-- The `Cum Sales` series of `plot_profits` (line 252). -/
def cumSales (records : List SaleRecord) : List ℚ :=
  cumFrom 0 ((datesOf records).map (dailySum records (fun r => r.totalPrice)))

/-- The `Cum Quantity` series of `plot_profits` (line 253). -/
def cumQuantity (records : List SaleRecord) : List ℚ :=
  cumFrom 0 ((datesOf records).map
    (dailySum records (fun r => (r.quantity : ℚ))))

/-- The `Cum eBay` series of `plot_profits` (line 254). -/
def cumEbay (storeRate nonStoreRate : ℚ) (records : List SaleRecord) :
    List ℚ :=
  cumFrom 0 ((datesOf records).map
    (dailySum records (ebayProfitCol storeRate nonStoreRate)))

/-- The `Cum PayPal` series of `plot_profits` (line 255). -/
def cumPaypal (records : List SaleRecord) : List ℚ :=
  cumFrom 0 ((datesOf records).map (dailySum records paypalProfitCol))

/-- The `Cum Scalper` series of `plot_profits` (line 256); the shipping
estimate feeding the scalper column is computed with no MSRP guard
(lines 226-229). -/
def cumScalper (msrp taxRate storeRate nonStoreRate : ℚ)
    (records : List SaleRecord) : List ℚ :=
  cumFrom 0 ((datesOf records).map
    (dailySum records
      (scalperProfitCol msrp taxRate storeRate nonStoreRate
        (estShippingOf records))))

/-- The scalar return of `plot_profits` (line 312): the last entries of the
three cumulative profit series (`iloc[-1]`), which raises on an empty frame,
modelled as `none`. -/
def plot_profits_final (msrp taxRate storeRate nonStoreRate : ℚ)
    (records : List SaleRecord) : Option (ℚ × ℚ × ℚ) :=
  match (cumEbay storeRate nonStoreRate records).getLast?,
        (cumPaypal records).getLast?,
        (cumScalper msrp taxRate storeRate nonStoreRate records).getLast? with
  | some a, some b, some c => some (a, b, c)
  | _, _, _ => none

/-- The nine sales-count tier conditions of `split_data_again`
(lines 805-813): exact totals 1..5, then `[6,10)`, `[11,20)`, `[21,50)`,
`[50,∞)`, applied to a seller's summed quantity. -/
def tierConds : List (ℕ → Bool) :=
  [ fun q => decide (q = 1)
  , fun q => decide (q = 2)
  , fun q => decide (q = 3)
  , fun q => decide (q = 4)
  , fun q => decide (q = 5)
  , fun q => decide (6 ≤ q ∧ q < 10)
  , fun q => decide (11 ≤ q ∧ q < 20)
  , fun q => decide (21 ≤ q ∧ q < 50)
  , fun q => decide (50 ≤ q) ]

/-- The `groupby(['Seller'])['Quantity'].sum()` step of `split_data_again`
(line 803): one `(seller, total quantity)` pair per distinct seller value. -/
def sellerTotals (records : List SaleRecord) : List (Option ℕ × ℕ) :=
  ((records.map (fun r => r.seller)).dedup).map
    (fun s => (s, ((records.filter (fun r => r.seller == s)).map
      (fun r => r.quantity)).sum))

/-- The `Quantity Sold` column built by `split_data_again` (lines 802-819):
for each tier, the sum of per-seller total quantities falling in that tier. -/
def split_data_again (records : List SaleRecord) : List ℕ :=
  tierConds.map (fun c =>
    (((sellerTotals records).filter (fun p => c p.2)).map
      (fun p => p.2)).sum)

/-- The `df_sell` frame of `ebay_seller_plot` (lines 755-756): records with a
seller identity and a feedback score. -/
def sellerFeedbackFiltered (records : List SaleRecord) : List SaleRecord :=
  (records.filter (fun r => r.seller.isSome)).filter
    (fun r => r.feedback.isSome)

/-- The store/non-store split feeding the sales-count breakdown of
`ebay_seller_plot` (lines 797-800).  The source computes
`df_quant = df[df['Seller'] != 'None']` and then indexes it with boolean
masks built on `df_sell` (the frame ALSO filtered on feedback):
`df_stores = df_quant[df_sell['Store'] == 1]`.  Pandas aligns the boolean
indexer on the row index, so whenever `df_quant` holds a row absent from
`df_sell` — i.e. some record has a seller but no feedback score — the
indexer is unalignable and pandas raises `IndexingError`, modelled as
`none`.  When every seller-bearing record also has a feedback score the two
frames coincide and the split is the plain `Store` partition of
`df_quant`. -/
def salesCountStoreSplit (records : List SaleRecord) :
    Option (List SaleRecord × List SaleRecord) :=
  let dfQuant := records.filter (fun r => r.seller.isSome)
  if dfQuant.all (fun r => r.feedback.isSome) then
    some (dfQuant.filter (fun r => r.store),
          dfQuant.filter (fun r => !r.store))
  else none

/-- Sum of the x-coordinates of a point list. -/
def sumX (pts : List (ℚ × ℚ)) : ℚ := (pts.map Prod.fst).sum

/-- Sum of the y-coordinates of a point list. -/
def sumY (pts : List (ℚ × ℚ)) : ℚ := (pts.map Prod.snd).sum

/-- Sum of squared x-coordinates of a point list. -/
def sumXX (pts : List (ℚ × ℚ)) : ℚ := (pts.map (fun p => p.1 * p.1)).sum

/-- Sum of x·y products of a point list. -/
def sumXY (pts : List (ℚ × ℚ)) : ℚ := (pts.map (fun p => p.1 * p.2)).sum

/-- Determinant of the degree-1 least-squares normal equations. -/
def denom (pts : List (ℚ × ℚ)) : ℚ :=
  (pts.length : ℚ) * sumXX pts - sumX pts * sumX pts

/-- Exact-arithmetic model of `poly.polyfit(x, y, 1)` (line 174): the unique
least-squares line through the points, written in closed form via Cramer's
rule on the normal equations; coefficients are returned lowest-degree
first, as `numpy.polynomial` does. -/
def polyfit1 (pts : List (ℚ × ℚ)) : ℚ × ℚ :=
  ((sumXX pts * sumY pts - sumX pts * sumXY pts) / denom pts,
   ((pts.length : ℚ) * sumXY pts - sumX pts * sumY pts) / denom pts)

/-- `poly.polyval` for a degree-1 coefficient pair (lowest-degree first). -/
def polyval1 (c : ℚ × ℚ) (x : ℚ) : ℚ := c.1 + c.2 * x

/-- Exact-arithmetic model of `sklearn.metrics.r2_score(y_true, y_pred)`:
`1 - ss_res / ss_tot`, with sklearn's convention for a zero total sum of
squares (1 when the residuals also vanish, 0 otherwise). -/
def r2_score (yTrue yPred : List ℚ) : ℚ :=
  let mean := yTrue.sum / (yTrue.length : ℚ)
  let ssRes := ((yTrue.zip yPred).map
    (fun p => (p.1 - p.2) * (p.1 - p.2))).sum
  let ssTot := (yTrue.map (fun y => (y - mean) * (y - mean))).sum
  if ssTot = 0 then (if ssRes = 0 then 1 else 0) else 1 - ssRes / ssTot

/-- First observed sold date of the median series:
`df_calc['Sold Date'].min()` (line 166), which for the groupby-keyed series
is the least key present. -/
def minDayOf : List (ℕ × ℚ) → ℕ
  | [] => 0
  | p :: rest => rest.foldl (fun m q => min m q.1) p.1

/-- The `x_orig` day-offsets of the trend section (lines 164-166): each
series date converted to its integer offset from the first observed date. -/
def trendOffset (series : List (ℕ × ℚ)) (p : ℕ × ℚ) : ℚ :=
  (p.1 : ℚ) - (minDayOf series : ℚ)

/-- The degree-1 trend fit of `ebay_plot` (lines 155-174): least-squares line
over `(day offset, median price)` pairs. -/
def trendFitLinear (series : List (ℕ × ℚ)) : ℚ × ℚ :=
  polyfit1 (series.map (fun p => (trendOffset series p, p.2)))

/-- The fitted values on the historical offsets
(`ffit = poly.polyval(x_orig, coefs)`, line 184). -/
def trendFitted (series : List (ℕ × ℚ)) : List ℚ :=
  series.map (fun p => polyval1 (trendFitLinear series) (trendOffset series p))

/-- The source's indicator-arithmetic eBay fee column agrees per record with
the store/non-store case split of the specification. -/
theorem ebayProfitCol_eq (storeRate nonStoreRate : ℚ) (r : SaleRecord) :
    ebayProfitCol storeRate nonStoreRate r =
      r.totalPrice * (if r.store then storeRate else nonStoreRate) := by
  cases hr : r.store <;> simp [ebayProfitCol, storeInd, hr]

/-- The source's indicator-arithmetic scalper column agrees per record with
`price - (MSRP*(1+tax) + shipping) - platform_fee - payment_fee`. -/
theorem scalperProfitCol_eq (msrp taxRate storeRate nonStoreRate estShip : ℚ)
    (r : SaleRecord) :
    scalperProfitCol msrp taxRate storeRate nonStoreRate estShip r =
      r.totalPrice - (msrp * (1 + taxRate) + estShip)
        - r.totalPrice * (if r.store then storeRate else nonStoreRate)
        - (r.totalPrice * 0.029 + 0.30) := by
  cases hr : r.store <;> simp [scalperProfitCol, storeInd, hr]

/-- Partial sums starting from a smaller accumulator dominate the start
value when all increments are nonnegative. -/
theorem le_of_mem_cumFrom (l : List ℚ) (h : ∀ x ∈ l, 0 ≤ x) (a : ℚ) :
    ∀ y ∈ cumFrom a l, a ≤ y := by
  induction l generalizing a with
  | nil => intro y hy; simp [cumFrom] at hy
  | cons x xs ih =>
      intro y hy
      have hx : 0 ≤ x := h x (List.mem_cons_self x xs)
      rcases List.mem_cons.mp hy with rfl | hy'
      · linarith
      · have := ih (fun z hz => h z (List.mem_cons_of_mem _ hz)) (a + x) y hy'
        linarith

/-- Running sums of nonnegative values are pairwise nondecreasing along the
list. -/
theorem cumFrom_pairwise (l : List ℚ) (h : ∀ x ∈ l, 0 ≤ x) (a : ℚ) :
    List.Pairwise (· ≤ ·) (cumFrom a l) := by
  induction l generalizing a with
  | nil => exact List.Pairwise.nil
  | cons x xs ih =>
      refine List.pairwise_cons.mpr ⟨?_, ih (fun z hz => h z (List.mem_cons_of_mem _ hz)) (a + x)⟩
      exact le_of_mem_cumFrom xs (fun z hz => h z (List.mem_cons_of_mem _ hz)) (a + x)

/-- Members of a filtered list are members of the original list. -/
theorem mem_of_mem_filter_list {l : List SaleRecord} {p : SaleRecord → Bool}
    {r : SaleRecord} (h : r ∈ l.filter p) : r ∈ l :=
  (List.mem_filter.mp h).1

/-- C2: in `plot_profits`, the profit split is computed per record before the
per-date aggregation: for every date, the aggregated eBay, PayPal and
scalper values are the sums, over the records sold that date, of
`price * (store ? store_rate : non_store_rate)`, `price * 0.029 + 0.30`,
and `price - (MSRP*(1+tax_rate) + estimated_shipping) - platform_fee -
payment_fee` respectively. -/
theorem plot_profits_per_record_split (msrp taxRate storeRate nonStoreRate : ℚ)
    (records : List SaleRecord) (d : ℕ) :
    dailySum records (ebayProfitCol storeRate nonStoreRate) d
        = ((records.filter (fun r => r.soldDate == d)).map
            (fun r => r.totalPrice *
              (if r.store then storeRate else nonStoreRate))).sum
  ∧ dailySum records paypalProfitCol d
        = ((records.filter (fun r => r.soldDate == d)).map
            (fun r => r.totalPrice * 0.029 + 0.30)).sum
  ∧ dailySum records
        (scalperProfitCol msrp taxRate storeRate nonStoreRate
          (estShippingOf records)) d
        = ((records.filter (fun r => r.soldDate == d)).map
            (fun r => r.totalPrice
              - (msrp * (1 + taxRate) + estShippingOf records)
              - r.totalPrice * (if r.store then storeRate else nonStoreRate)
              - (r.totalPrice * 0.029 + 0.30))).sum := by
  refine ⟨?_, rfl, ?_⟩
  · unfold dailySum
    exact congrArg List.sum
      (List.map_congr_left fun r _ => ebayProfitCol_eq storeRate nonStoreRate r)
  · unfold dailySum
    exact congrArg List.sum
      (List.map_congr_left fun r _ =>
        scalperProfitCol_eq msrp taxRate storeRate nonStoreRate
          (estShippingOf records) r)

/-- C3: the cumulative sales and cumulative quantity series of
`plot_profits` are nondecreasing across ascending dates whenever every
record has `total_price ≥ 0` and `quantity ≥ 1`. -/
theorem plot_profits_cum_monotone (records : List SaleRecord)
    (hp : ∀ r ∈ records, 0 ≤ r.totalPrice)
    (hq : ∀ r ∈ records, 1 ≤ r.quantity) :
    List.Pairwise (· ≤ ·) (cumSales records) ∧
    List.Pairwise (· ≤ ·) (cumQuantity records) := by
  constructor
  · refine cumFrom_pairwise _ ?_ 0
    intro x hx
    obtain ⟨d, _, rfl⟩ := List.mem_map.mp hx
    refine List.sum_nonneg ?_
    intro y hy
    obtain ⟨r, hr, rfl⟩ := List.mem_map.mp hy
    exact hp r (mem_of_mem_filter_list hr)
  · refine cumFrom_pairwise _ ?_ 0
    intro x hx
    obtain ⟨d, _, rfl⟩ := List.mem_map.mp hx
    refine List.sum_nonneg ?_
    intro y hy
    obtain ⟨r, _, rfl⟩ := List.mem_map.mp hy
    exact_mod_cast Nat.zero_le r.quantity

/-- Witness for C3 at a concrete two-date input. -/
theorem plot_profits_cum_monotone_witness :
    List.Pairwise (· ≤ ·) (cumSales
      [⟨0, 100, 5, 1, false, none, none⟩,
       ⟨1, 99, 7, 2, true, some 1, some 3⟩]) ∧
    List.Pairwise (· ≤ ·) (cumQuantity
      [⟨0, 100, 5, 1, false, none, none⟩,
       ⟨1, 99, 7, 2, true, some 1, some 3⟩]) :=
  plot_profits_cum_monotone _ (by decide) (by decide)

/-- C4 counterexample: on the empty record set, `ebay_plot` raises
(`max()` of an empty sequence on line 68, `int(NaN)` on line 71) instead of
returning zero-default aggregates; the model accordingly produces no
result. -/
theorem ebay_plot_empty_counterexample :
    ebay_plot 100 0 ([] : List SaleRecord) = none := rfl

/-- C4 amended: for the empty record set, both scalar entry points fail
(`ebay_plot` via `max`/`int(NaN)`, `plot_profits` via `iloc[-1]` on an empty
frame) rather than returning zero-default aggregates. -/
theorem ebay_plot_empty_amended (msrp taxRate storeRate nonStoreRate : ℚ) :
    ebay_plot msrp taxRate ([] : List SaleRecord) = none ∧
    plot_profits_final msrp taxRate storeRate nonStoreRate
      ([] : List SaleRecord) = none := ⟨rfl, rfl⟩

/-- C5 counterexample: with `MSRP = 0`, `plot_profits` does NOT skip the
profit split: for a single non-store sale at price 100 (fee rates 10%), the
aggregated scalper-profit series is computed and equals `86.8`, not a
zero/sentinel. -/
theorem plot_profits_zero_msrp_counterexample :
    cumScalper 0 0 (1 / 10) (1 / 10)
        [⟨0, 100, 0, 1, false, none, none⟩] = [434 / 5] ∧
    (434 / 5 : ℚ) ≠ 0 := by
  constructor
  · norm_num [cumScalper, datesOf, sortLe, insertLe, dailySum, cumFrom,
      scalperProfitCol, storeInd, estShippingOf, median, List.dedup]
  · norm_num

/-- C5 amended: with `MSRP = 0`, `ebay_plot` skips the break-even block
(both thresholds and the shipping estimate stay 0, and no division by zero
occurs), while `plot_profits` computes the per-record profit split
unconditionally — the MSRP merely contributes a zero acquisition cost. -/
theorem zero_msrp_amended (taxRate storeRate nonStoreRate : ℚ)
    (records : List SaleRecord) (hne : records ≠ []) :
    (∃ res, ebay_plot 0 taxRate records = some res ∧
      res.est_break_even = 0 ∧ res.min_break_even = 0 ∧
      res.estimated_shipping = 0) ∧
    (∀ d, dailySum records
        (scalperProfitCol 0 taxRate storeRate nonStoreRate
          (estShippingOf records)) d
      = ((records.filter (fun r => r.soldDate == d)).map
          (fun r => r.totalPrice - estShippingOf records
            - r.totalPrice * (if r.store then storeRate else nonStoreRate)
            - (r.totalPrice * 0.029 + 0.30))).sum) := by
  constructor
  · cases records with
    | nil => exact absurd rfl hne
    | cons a l => exact ⟨_, rfl, by norm_num, by norm_num, by norm_num⟩
  · intro d
    unfold dailySum
    refine congrArg List.sum (List.map_congr_left fun r _ => ?_)
    rw [scalperProfitCol_eq]
    ring

/-- Witness for C5 (amended) at a concrete input. -/
theorem zero_msrp_amended_witness :
    (∃ res, ebay_plot 0 0 [⟨0, 100, 0, 1, false, none, none⟩] = some res ∧
      res.est_break_even = 0 ∧ res.min_break_even = 0 ∧
      res.estimated_shipping = 0) ∧
    (∀ d, dailySum [⟨0, 100, 0, 1, false, none, none⟩]
        (scalperProfitCol 0 0 (1 / 10) (1 / 10)
          (estShippingOf [⟨0, 100, 0, 1, false, none, none⟩])) d
      = ((([⟨0, 100, 0, 1, false, none, none⟩] : List SaleRecord).filter
            (fun r => r.soldDate == d)).map
          (fun r => r.totalPrice
            - estShippingOf [⟨0, 100, 0, 1, false, none, none⟩]
            - r.totalPrice * (if r.store then (1 : ℚ) / 10 else 1 / 10)
            - (r.totalPrice * 0.029 + 0.30))).sum) :=
  zero_msrp_amended 0 (1 / 10) (1 / 10) _ (by decide)

/-- C1: for every nonempty prepared record set and MSRP > 0, the break-even
thresholds returned by `ebay_plot` are exactly the closed-form formulas of
the specification: `round(MSRP*(1+tax_rate)/(1 - 0.1 - 0.029) + 0.30 +
estimated_shipping)` and `round(MSRP*(1 - 0.05)/(1 - 0.036 - 0.029) +
0.30)`. -/
theorem ebay_plot_break_even_formulas (msrp taxRate : ℚ)
    (records : List SaleRecord) (hne : records ≠ []) (hm : 0 < msrp) :
    ∃ res, ebay_plot msrp taxRate records = some res ∧
      res.est_break_even =
        pythonRound (msrp * (1 + taxRate) / (1 - 0.1 - 0.029) + 0.30
          + estShippingOf records) ∧
      res.min_break_even =
        pythonRound (msrp * (1 - 0.05) / (1 - 0.036 - 0.029) + 0.30) := by
  cases records with
  | nil => exact absurd rfl hne
  | cons a l =>
      refine ⟨_, rfl, ?_, ?_⟩ <;> simp [if_pos hm]

/-- Witness for C1 at a concrete input. -/
theorem ebay_plot_break_even_formulas_witness :
    ∃ res, ebay_plot 100 0
        [⟨0, 100, 5, 1, false, none, none⟩] = some res ∧
      res.est_break_even =
        pythonRound (100 * (1 + 0) / (1 - 0.1 - 0.029) + 0.30
          + estShippingOf [⟨0, 100, 5, 1, false, none, none⟩]) ∧
      res.min_break_even =
        pythonRound (100 * (1 - 0.05) / (1 - 0.036 - 0.029) + 0.30) :=
  ebay_plot_break_even_formulas 100 0 _ (by decide) (by norm_num)

/-- C9: for every nonempty prepared record set and MSRP > 0, the
`estimated_shipping` scalar returned by `ebay_plot` equals the median of the
strictly-positive shipping values, and defaults to 0 when no record has
strictly positive shipping (the undefined median does not raise). -/
theorem ebay_plot_estimated_shipping (msrp taxRate : ℚ)
    (records : List SaleRecord) (hne : records ≠ []) (hm : 0 < msrp) :
    ∃ res, ebay_plot msrp taxRate records = some res ∧
      ((records.filter (fun r => decide (0 < r.shipping))).map
          (fun r => r.shipping) = [] → res.estimated_shipping = 0) ∧
      (∀ m, median ((records.filter (fun r => decide (0 < r.shipping))).map
          (fun r => r.shipping)) = some m → res.estimated_shipping = m) := by
  cases records with
  | nil => exact absurd rfl hne
  | cons a l =>
      refine ⟨_, rfl, ?_, ?_⟩
      · intro hempty
        simp [if_pos hm, estShippingOf, hempty, median, sortLe]
      · intro m hm'
        simp [if_pos hm, estShippingOf, hm']

/-- Witness for C9 at a concrete input (shipping values 5 and 7, median 6). -/
theorem ebay_plot_estimated_shipping_witness :
    ∃ res, ebay_plot 100 0
        [⟨0, 100, 5, 1, false, none, none⟩,
         ⟨1, 99, 7, 2, true, some 1, some 3⟩,
         ⟨1, 50, 0, 1, false, some 1, none⟩] = some res ∧
      ((([⟨0, 100, 5, 1, false, none, none⟩,
         ⟨1, 99, 7, 2, true, some 1, some 3⟩,
         ⟨1, 50, 0, 1, false, some 1, none⟩] : List SaleRecord).filter
            (fun r => decide (0 < r.shipping))).map (fun r => r.shipping)
          = [] → res.estimated_shipping = 0) ∧
      (∀ m, median ((([⟨0, 100, 5, 1, false, none, none⟩,
         ⟨1, 99, 7, 2, true, some 1, some 3⟩,
         ⟨1, 50, 0, 1, false, some 1, none⟩] : List SaleRecord).filter
            (fun r => decide (0 < r.shipping))).map (fun r => r.shipping))
          = some m → res.estimated_shipping = m) :=
  ebay_plot_estimated_shipping 100 0 _ (by decide) (by norm_num)

/-- C10: for every nonempty prepared record set, the median-price scalar
returned by `ebay_plot` is the overall `Total Price` median truncated to an
integer (`int(...)`), not the exact median. -/
theorem ebay_plot_median_truncation (msrp taxRate : ℚ)
    (records : List SaleRecord) (hne : records ≠ []) :
    ∃ res, ebay_plot msrp taxRate records = some res ∧
      ∀ m, median (records.map (fun r => r.totalPrice)) = some m →
        res.median_price = intTrunc m := by
  cases records with
  | nil => exact absurd rfl hne
  | cons a l =>
      refine ⟨_, rfl, ?_⟩
      intro m hm'
      rw [List.map_cons] at hm'
      simp [hm']

/-- Witness for C10: prices 99 and 100 have true median 99.5, and the
returned scalar is 99. -/
theorem ebay_plot_median_truncation_witness :
    (∃ res, ebay_plot 100 0
        [⟨0, 99, 0, 1, false, none, none⟩,
         ⟨1, 100, 0, 1, false, none, none⟩] = some res ∧
      ∀ m, median (([⟨0, 99, 0, 1, false, none, none⟩,
         ⟨1, 100, 0, 1, false, none, none⟩] : List SaleRecord).map
          (fun r => r.totalPrice)) = some m →
        res.median_price = intTrunc m) ∧
    median [99, 100] = some (199 / 2) ∧ intTrunc (199 / 2) = 99 :=
  ⟨ebay_plot_median_truncation 100 0 _ (by decide),
   by norm_num [median, sortLe, insertLe],
   by norm_num [intTrunc]⟩

/-- The nine sales-count tier conditions are pairwise disjoint: no seller
total satisfies two of them. -/
theorem tierConds_disjoint (q : ℕ) :
    tierConds.countP (fun c => c q) ≤ 1 := by
  simp only [tierConds, List.countP_cons, List.countP_nil,
    decide_eq_true_eq]
  split_ifs <;> omega

/-- Away from the boundary gaps 10 and 20, the tier conditions are also
exhaustive: every positive seller total satisfies exactly one of them. -/
theorem tierConds_exhaustive (q : ℕ) (h1 : 1 ≤ q) (h10 : q ≠ 10)
    (h20 : q ≠ 20) : tierConds.countP (fun c => c q) = 1 := by
  simp only [tierConds, List.countP_cons, List.countP_nil,
    decide_eq_true_eq]
  split_ifs <;> omega

/-- Summing a column over a filtered list equals summing the column gated
by the filter condition. -/
theorem sum_filter_gate (c : ℕ → Bool) (l : List (Option ℕ × ℕ)) :
    ((l.filter (fun p => c p.2)).map (fun p => p.2)).sum
      = (l.map (fun p => if c p.2 then p.2 else 0)).sum := by
  induction l with
  | nil => rfl
  | cons p ps ih =>
      by_cases hc : c p.2 = true
      · simp [List.filter_cons, hc, ih]
      · simp [List.filter_cons, hc, ih]

/-- Pointwise sums of two mapped columns add. -/
theorem sum_map_add_nat {α : Type} (f g : α → ℕ) (l : List α) :
    (l.map (fun x => f x + g x)).sum = (l.map f).sum + (l.map g).sum := by
  induction l with
  | nil => rfl
  | cons x xs ih => simp [ih]; omega

/-- A gated value summed over a list of conditions counts the value once per
satisfied condition. -/
theorem gate_sum (conds : List (ℕ → Bool)) (q : ℕ) :
    (conds.map (fun c => if c q then q else 0)).sum
      = q * conds.countP (fun c => c q) := by
  induction conds with
  | nil => simp
  | cons c cs ih =>
      cases hc : c q <;>
        simp [List.countP_cons, hc, ih, Nat.mul_add, Nat.add_comm]

/-- The grand total over all tier buckets counts each per-seller total once
per tier condition it satisfies. -/
theorem bucket_total (conds : List (ℕ → Bool)) (l : List (Option ℕ × ℕ)) :
    (conds.map (fun c =>
        ((l.filter (fun p => c p.2)).map (fun p => p.2)).sum)).sum
      = (l.map (fun p => p.2 * conds.countP (fun c => c p.2))).sum := by
  induction l with
  | nil =>
      have : ∀ c : ℕ → Bool,
          ((List.filter (fun p => c p.2) ([] : List (Option ℕ × ℕ))).map
            (fun p => p.2)).sum = 0 := fun c => rfl
      simp
  | cons p ps ih =>
      have step : ∀ c : ℕ → Bool,
          (((p :: ps).filter (fun x => c x.2)).map (fun x => x.2)).sum
            = (if c p.2 then p.2 else 0)
              + ((ps.filter (fun x => c x.2)).map (fun x => x.2)).sum := by
        intro c
        by_cases hc : c p.2 = true <;> simp [List.filter_cons, hc]
      calc (conds.map (fun c =>
              (((p :: ps).filter (fun x => c x.2)).map (fun x => x.2)).sum)).sum
          = (conds.map (fun c => (if c p.2 then p.2 else 0)
              + ((ps.filter (fun x => c x.2)).map (fun x => x.2)).sum)).sum :=
            congrArg List.sum (List.map_congr_left fun c _ => step c)
        _ = (conds.map (fun c => if c p.2 then p.2 else 0)).sum
              + (conds.map (fun c =>
                  ((ps.filter (fun x => c x.2)).map (fun x => x.2)).sum)).sum :=
            sum_map_add_nat _ _ conds
        _ = p.2 * conds.countP (fun c => c p.2)
              + ((ps.map (fun x => x.2 * conds.countP (fun c => c x.2))).sum) := by
            rw [gate_sum, ih]
        _ = ((p :: ps).map (fun x => x.2 * conds.countP (fun c => c x.2))).sum := by
            simp

/-- C6 counterexample: the sales-count tiers are not exhaustive.  A single
seller with total quantity 10 falls into no tier (the `[6,10)` tier excludes
10 and the next tier starts at 11), so every bucket of `split_data_again` is
0 while the total quantity over sellers is 10. -/
theorem split_data_again_gap_counterexample :
    split_data_again [⟨0, 100, 0, 10, false, some 1, none⟩]
        = [0, 0, 0, 0, 0, 0, 0, 0, 0] ∧
    ((sellerTotals [⟨0, 100, 0, 10, false, some 1, none⟩]).map
        (fun p => p.2)).sum = 10 := by
  decide

/-- C6 amended: the sales-count tiers are pairwise disjoint, and they are
exhaustive over every seller whose total quantity is positive and differs
from the boundary gaps 10 and 20; under that restriction each such seller
falls into exactly one tier and the per-tier sums of `split_data_again` add
up to the total quantity over the sellers. -/
theorem split_data_again_amended (records : List SaleRecord)
    (h : ∀ p ∈ sellerTotals records, 1 ≤ p.2 ∧ p.2 ≠ 10 ∧ p.2 ≠ 20) :
    (∀ q : ℕ, tierConds.countP (fun c => c q) ≤ 1) ∧
    (∀ p ∈ sellerTotals records, tierConds.countP (fun c => c p.2) = 1) ∧
    (split_data_again records).sum
      = ((sellerTotals records).map (fun p => p.2)).sum := by
  refine ⟨tierConds_disjoint, ?_, ?_⟩
  · intro p hp
    exact tierConds_exhaustive p.2 (h p hp).1 (h p hp).2.1 (h p hp).2.2
  · unfold split_data_again
    rw [bucket_total]
    have : (sellerTotals records).map
        (fun p => p.2 * tierConds.countP (fun c => c p.2))
        = (sellerTotals records).map (fun p => p.2) := by
      refine List.map_congr_left fun p hp => ?_
      rw [tierConds_exhaustive p.2 (h p hp).1 (h p hp).2.1 (h p hp).2.2,
        Nat.mul_one]
    rw [this]

/-- Witness for C6 (amended) at a concrete input with seller totals 3
and 2. -/
theorem split_data_again_amended_witness :
    (∀ q : ℕ, tierConds.countP (fun c => c q) ≤ 1) ∧
    (∀ p ∈ sellerTotals
        [⟨0, 100, 0, 3, false, some 1, none⟩,
         ⟨1, 50, 0, 2, false, some 2, none⟩],
      tierConds.countP (fun c => c p.2) = 1) ∧
    (split_data_again
        [⟨0, 100, 0, 3, false, some 1, none⟩,
         ⟨1, 50, 0, 2, false, some 2, none⟩]).sum
      = ((sellerTotals
          [⟨0, 100, 0, 3, false, some 1, none⟩,
           ⟨1, 50, 0, 2, false, some 2, none⟩]).map (fun p => p.2)).sum :=
  split_data_again_amended _ (by decide)

/-- C7: the claim describes the intended behaviour, but the source has a
slip: lines 799-800 index `df_quant` with boolean masks computed on
`df_sell` (`df_stores = df_quant[df_sell['Store'] == 1]`), the frame that
was ALSO filtered on feedback.  Hence a record with a seller identity but a
missing feedback score — which the claim says only leaves the feedback-tier
breakdown — makes the store/non-store split of the sales-count breakdown
raise a pandas `IndexingError` (unalignable boolean indexer), modelled as
`none`; the record is indeed excluded from the feedback frame. -/
theorem seller_split_mask_bug :
    salesCountStoreSplit [⟨0, 100, 0, 1, false, some 1, none⟩] = none ∧
    sellerFeedbackFiltered [⟨0, 100, 0, 1, false, some 1, none⟩] = [] := by
  decide

/-- Summing a line over a list of abscissae. -/
theorem sum_map_line (a b : ℚ) (xs : List ℚ) :
    (xs.map (fun x => a + b * x)).sum = (xs.length : ℚ) * a + b * xs.sum := by
  induction xs with
  | nil => simp
  | cons x xs ih =>
      simp only [List.map_cons, List.sum_cons, List.length_cons, ih]
      push_cast
      ring

/-- Summing abscissa times line value over a list of abscissae. -/
theorem sum_map_mul_line (a b : ℚ) (xs : List ℚ) :
    (xs.map (fun x => x * (a + b * x))).sum
      = a * xs.sum + b * (xs.map (fun x => x * x)).sum := by
  induction xs with
  | nil => simp
  | cons x xs ih =>
      simp only [List.map_cons, List.sum_cons, ih]
      ring

/-- Expansion of a sum of squared deviations from a constant. -/
theorem sum_sq_dev (c : ℚ) (xs : List ℚ) :
    (xs.map (fun x => (x - c) * (x - c))).sum
      = (xs.map (fun x => x * x)).sum - 2 * c * xs.sum
        + (xs.length : ℚ) * (c * c) := by
  induction xs with
  | nil => simp
  | cons x xs ih =>
      simp only [List.map_cons, List.sum_cons, List.length_cons, ih]
      push_cast
      ring

/-- Strict Cauchy-Schwarz for a list with two distinct entries: the squared
sum is strictly below the length times the sum of squares, so the
least-squares determinant is positive. -/
theorem sq_sum_lt (xs : List ℚ) (h : ∃ x ∈ xs, ∃ y ∈ xs, x ≠ y) :
    xs.sum * xs.sum < (xs.length : ℚ) * (xs.map (fun x => x * x)).sum := by
  obtain ⟨x, hx, y, hy, hxy⟩ := h
  have hne : xs ≠ [] := by rintro rfl; simp at hx
  have hn : 0 < (xs.length : ℚ) := by
    exact_mod_cast List.length_pos.mpr hne
  set n : ℚ := (xs.length : ℚ) with hn'
  set m : ℚ := xs.sum / n with hm
  have hnm : n * m = xs.sum := by
    rw [hm, mul_comm, div_mul_cancel₀ _ (ne_of_gt hn)]
  have hz : ∃ z ∈ xs, z ≠ m := by
    by_cases hxm : x = m
    · exact ⟨y, hy, fun hym => hxy (by rw [hxm, hym])⟩
    · exact ⟨x, hx, hxm⟩
  obtain ⟨z, hzmem, hzne⟩ := hz
  have hpos : 0 < (xs.map (fun t => (t - m) * (t - m))).sum := by
    have h1 : 0 < (z - m) * (z - m) :=
      mul_self_pos.mpr (sub_ne_zero.mpr hzne)
    have h2 : (z - m) * (z - m)
        ≤ (xs.map (fun t => (t - m) * (t - m))).sum := by
      refine List.single_le_sum ?_ _ (List.mem_map_of_mem _ hzmem)
      intro t ht
      obtain ⟨w, _, rfl⟩ := List.mem_map.mp ht
      exact mul_self_nonneg _
    linarith
  have e1 : n * ((xs.map (fun t => (t - m) * (t - m))).sum)
      = n * (xs.map (fun t => t * t)).sum - xs.sum * xs.sum := by
    rw [sum_sq_dev]
    linear_combination (n * m - xs.sum) * hnm
  have hp := mul_pos hn hpos
  rw [e1] at hp
  linarith

/-- Fitting a degree-1 least-squares polynomial to points lying exactly on
the line `y = a + b·x` recovers the coefficients `(a, b)` exactly, provided
two abscissae differ. -/
theorem polyfit1_exact (xs : List ℚ) (a b : ℚ)
    (h : ∃ x ∈ xs, ∃ y ∈ xs, x ≠ y) :
    polyfit1 (xs.map (fun x => (x, a + b * x))) = (a, b) := by
  have hlt := sq_sum_lt xs h
  have hfst : (xs.map (fun x => (x, a + b * x))).map Prod.fst = xs := by
    rw [List.map_map]
    exact List.map_id xs
  have hsnd : (xs.map (fun x => (x, a + b * x))).map Prod.snd
      = xs.map (fun x => a + b * x) := by
    rw [List.map_map]
    rfl
  have hxx : (xs.map (fun x => (x, a + b * x))).map (fun p => p.1 * p.1)
      = xs.map (fun x => x * x) := by
    rw [List.map_map]
    rfl
  have hxy : (xs.map (fun x => (x, a + b * x))).map (fun p => p.1 * p.2)
      = xs.map (fun x => x * (a + b * x)) := by
    rw [List.map_map]
    rfl
  have hlen : (((xs.map (fun x => (x, a + b * x))).length : ℕ) : ℚ)
      = (xs.length : ℚ) := by
    simp
  have e1 : sumX (xs.map (fun x => (x, a + b * x))) = xs.sum := by
    rw [sumX, hfst]
  have e2 : sumY (xs.map (fun x => (x, a + b * x)))
      = (xs.length : ℚ) * a + b * xs.sum := by
    rw [sumY, hsnd, sum_map_line]
  have e3 : sumXX (xs.map (fun x => (x, a + b * x)))
      = (xs.map (fun x => x * x)).sum := by
    rw [sumXX, hxx]
  have e4 : sumXY (xs.map (fun x => (x, a + b * x)))
      = a * xs.sum + b * (xs.map (fun x => x * x)).sum := by
    rw [sumXY, hxy, sum_map_mul_line]
  have e6 : denom (xs.map (fun x => (x, a + b * x)))
      = (xs.length : ℚ) * (xs.map (fun x => x * x)).sum - xs.sum * xs.sum := by
    rw [denom, e3, e1, hlen]
  have hdpos : (0 : ℚ) < (xs.length : ℚ) * (xs.map (fun x => x * x)).sum
      - xs.sum * xs.sum := sub_pos.mpr hlt
  unfold polyfit1
  rw [e1, e2, e3, e4, e6, hlen, Prod.mk.injEq]
  constructor
  · rw [div_eq_iff (ne_of_gt hdpos)]
    ring
  · rw [div_eq_iff (ne_of_gt hdpos)]
    ring

/-- The coefficient of determination of a series against itself is 1 (the
residual sum of squares vanishes, covering sklearn's zero-variance
convention as well). -/
theorem r2_score_self (ys : List ℚ) : r2_score ys ys = 1 := by
  have hres : ((ys.zip ys).map (fun p => (p.1 - p.2) * (p.1 - p.2))).sum
      = 0 := by
    induction ys with
    | nil => rfl
    | cons y ys ih => simp [List.zip_cons_cons, ih]
  simp only [r2_score, hres]
  split_ifs <;> norm_num

/-- C8: if the date-ordered median-price series lies exactly on the line
`price = a + b·(day offset from the first observed date)` and at least two
distinct dates occur, then the degree-1 fit of `ebay_plot` recovers exactly
the coefficients `(a, b)` and the reported R² against the historical series
is 1. -/
theorem trend_linear_round_trip (series : List (ℕ × ℚ)) (a b : ℚ)
    (hline : ∀ p ∈ series, p.2 = a + b * trendOffset series p)
    (hdist : ∃ p ∈ series, ∃ q ∈ series, p.1 ≠ q.1) :
    trendFitLinear series = (a, b) ∧
    r2_score (trendFitted series) (series.map Prod.snd) = 1 := by
  have hmap : series.map (fun p => (trendOffset series p, p.2))
      = (series.map (fun p => trendOffset series p)).map
          (fun x => (x, a + b * x)) := by
    rw [List.map_map]
    refine List.map_congr_left fun p hp => ?_
    simp only [Function.comp]
    rw [← hline p hp]
  have hdist' : ∃ x ∈ series.map (fun p => trendOffset series p),
      ∃ y ∈ series.map (fun p => trendOffset series p), x ≠ y := by
    obtain ⟨p, hp, q, hq, hne⟩ := hdist
    refine ⟨_, List.mem_map_of_mem _ hp, _, List.mem_map_of_mem _ hq, ?_⟩
    unfold trendOffset
    intro hEq
    apply hne
    have hc : (p.1 : ℚ) = (q.1 : ℚ) := by linarith
    exact_mod_cast hc
  have hfit : trendFitLinear series = (a, b) := by
    unfold trendFitLinear
    rw [hmap]
    exact polyfit1_exact _ a b hdist'
  refine ⟨hfit, ?_⟩
  have hfitted : trendFitted series = series.map Prod.snd := by
    unfold trendFitted
    refine List.map_congr_left fun p hp => ?_
    rw [hfit]
    unfold polyval1
    exact (hline p hp).symm
  rw [hfitted]
  exact r2_score_self _

/-- Witness for C8: the two-date series with prices 10 and 12 lies on
`price = 10 + 2·day_offset`, and the fit recovers `(10, 2)` with R² 1. -/
theorem trend_linear_round_trip_witness :
    trendFitLinear [(5, 10), (6, 12)] = (10, 2) ∧
    r2_score (trendFitted [(5, 10), (6, 12)])
      ([((5 : ℕ), (10 : ℚ)), (6, 12)].map Prod.snd) = 1 :=
  trend_linear_round_trip [(5, 10), (6, 12)] 10 2
    (by
      intro p hp
      rcases List.mem_cons.mp hp with rfl | hp'
      · norm_num [trendOffset, minDayOf]
      · rcases List.mem_cons.mp hp' with rfl | hp''
        · norm_num [trendOffset, minDayOf]
        · simp at hp'')
    ⟨(5, 10), by norm_num, (6, 12), by norm_num, by norm_num⟩
